import Mathlib

/-!
Verification of the `sunraster` spectrogram module
(`src/sunraster/spectrogram.py`): a shallow embedding of the axis-name
resolution logic (`_find_name_in_array`, `_find_axis_name`), the accessor
error paths, and the exposure-time correction pipeline
(`_calculate_exposure_time_correction`, `_uncalculate_exposure_time_correction`,
`SpectrogramCube.apply_exposure_time_correction`), together with theorems
settling the specification claims about them.

Modelling conventions:
- Python exceptions become an explicit `PyError` value in `Except`.
- numpy arrays of data become lists of lists of rationals: the outer list is
  the first (exposure) axis, the inner list is the flattened remainder of the
  array.  Under this grouping the `[:, np.newaxis]`-style reshapes of the
  exposure array are the identity on the model, and broadcast division by a
  per-exposure array divides row `i` by entry `i`.
- astropy units are modelled by `AUnit`: the integer exponent of the seconds
  base in the unit's dimensional decomposition, plus an opaque identifier for
  the time-free factor.  `u.s in unit.decompose().bases` holds exactly when
  the seconds exponent is nonzero; multiplying or dividing by `u.s` shifts the
  exponent by one and leaves the time-free factor unchanged.
- floating point arithmetic is modelled exactly over the rationals.
-/

/-- Kinds of Python exceptions the embedded code can raise, with their
message.  `typeError` covers the failure of the `int(...)` conversion in
`_find_name_in_array`; `nameError` covers an undefined global name referenced
at runtime. -/
inductive PyError where
  | valueError : String → PyError
  | typeError : String → PyError
  | nameError : String → PyError
deriving DecidableEq, Repr

/-- The location where a resolved coordinate is stored, the two string values
"wcs" and "extra_coords" used by `_find_axis_name`. -/
inductive Loc where
  | wcs : Loc
  | extra_coords : Loc
deriving DecidableEq, Repr

/-- Python `str.upper` (ASCII, as used on the supported-name alias lists). -/
def pyUpper (s : String) : String := String.mk (s.data.map Char.toUpper)

/-- Python `str.capitalize` (ASCII): first character upper-cased, the rest
lower-cased. -/
def pyCapitalize (s : String) : String :=
  match s.data with
  | [] => ""
  | c :: cs => String.mk (Char.toUpper c :: cs.map Char.toLower)

/-- The construction `names += [n.upper() for n in names] + [n.capitalize()
for n in names]` applied to each base alias list in `spectrogram.py`. -/
def mkSupportedNames (base : List String) : List String :=
  base ++ base.map pyUpper ++ base.map pyCapitalize

/-- The list `SUPPORTED_LONGITUDE_NAMES` from `spectrogram.py`. -/
def SUPPORTED_LONGITUDE_NAMES : List String :=
  mkSupportedNames ["custom:pos.helioprojective.lon", "pos.helioprojective.lon",
                    "longitude", "lon"]

/-- The list `SUPPORTED_LATITUDE_NAMES` from `spectrogram.py`. -/
def SUPPORTED_LATITUDE_NAMES : List String :=
  mkSupportedNames ["custom:pos.helioprojective.lat", "pos.helioprojective.lat",
                    "latitude", "lat"]

/-- The list `SUPPORTED_SPECTRAL_NAMES` from `spectrogram.py`. -/
def SUPPORTED_SPECTRAL_NAMES : List String :=
  mkSupportedNames ["em.wl", "em.energy", "em.freq", "wavelength", "energy",
                    "frequency", "freq", "lambda", "spectral"]

/-- The list `SUPPORTED_TIME_NAMES` from `spectrogram.py`. -/
def SUPPORTED_TIME_NAMES : List String :=
  mkSupportedNames ["time"]

/-- The list `SUPPORTED_EXPOSURE_NAMES` from `spectrogram.py`. -/
def SUPPORTED_EXPOSURE_NAMES : List String :=
  mkSupportedNames ["exposure time", "exposure_time", "exposure times",
                    "exposure_times", "exp time", "exp_time", "exp times", "exp_times"]

/-- The constant `APPLY_EXPOSURE_TIME_ERROR` from `spectrogram.py` (the single quotes
around the word force are elided from the model's string literal). -/
def APPLY_EXPOSURE_TIME_ERROR : String :=
  "Exposure time correction has probably already been applied since the unit " ++
  "already includes inverse time. To apply exposure time correction anyway, " ++
  "set force kwarg to True."

/-- The constant `UNDO_EXPOSURE_TIME_ERROR` from `spectrogram.py` (single quotes elided). -/
def UNDO_EXPOSURE_TIME_ERROR : String :=
  "Exposure time correction has probably already been undone since the unit " ++
  "does not include inverse time. To undo exposure time correction anyway, " ++
  "set force kwarg to True."

/-- The constant `AXIS_NOT_FOUND_ERROR` from `spectrogram.py`. -/
def AXIS_NOT_FOUND_ERROR : String :=
  " axis not found. If in extra_coords, axis name must be supported: "

/-- The message of the `ValueError` raised by the dimensionality check in
`apply_exposure_time_correction`.  The code interpolates
`len(self.dimensions.shape)`, and `self.dimensions` is a one-dimensional
quantity, so the interpolated value is always 1. -/
def INVALID_DIMENSIONALITY_ERROR : String :=
  "SpectrogramCube dimensions must be 2 or 3. Dimensions=1"

/-- The `TypeError` message produced by `int(...)` on a numpy array holding
more than one element, as in `_find_name_in_array` when several names match. -/
def SIZE1_TYPE_ERROR : String :=
  "only size-1 arrays can be converted to Python scalars"

/-- The `ValueError` numpy raises when array operands have mismatched shapes. -/
def BROADCAST_VALUE_ERROR : String :=
  "operands could not be broadcast together"

/-- The elements of `names_array` selected by the boolean mask
`np.isin(names_array, supported_names)`, in axis order. -/
def isinMatches (supported_names names_array : List String) : List String :=
  names_array.filter (fun n => decide (n ∈ supported_names))

/-- Embedding of `_find_name_in_array`: if no element matches, fall through (return
`None`); otherwise convert the array of matching indices with `int(...)`,
which yields the unique index when exactly one element matches and raises a
`TypeError` when two or more do, then return the element at that index. -/
def findNameInArray (supported_names names_array : List String) :
    Except PyError (Option String) :=
  match isinMatches supported_names names_array with
  | [] => Except.ok none
  | [m] => Except.ok (some m)
  | _ => Except.error (PyError.typeError SIZE1_TYPE_ERROR)

/-- Python truthiness of the `axis_name` value flowing through
`_find_axis_name`: `None` and the empty string are falsy. -/
def pyTruthyName (o : Option String) : Bool :=
  match o with
  | none => false
  | some s => s ≠ ""

/-- Python truthiness of the `extra_coords` dict (modelled by its key list):
`None` and the empty dict are falsy. -/
def pyTruthyKeys (extra_coords : Option (List String)) : Bool :=
  match extra_coords with
  | none => false
  | some keys => keys ≠ []

/-- Embedding of `_find_axis_name`: search the WCS physical types first; on a truthy hit
the location is "wcs".  Otherwise, if `extra_coords` is truthy, search its
key list, overwriting `axis_name`; on a truthy hit the location is
"extra_coords".  Any `TypeError` from `_find_name_in_array` propagates. -/
def findAxisName (supported_names world_axis_physical_types : List String)
    (extra_coords : Option (List String)) :
    Except PyError (Option String × Option Loc) :=
  match findNameInArray supported_names world_axis_physical_types with
  | Except.error err => Except.error err
  | Except.ok axis_name =>
    if pyTruthyName axis_name then
      Except.ok (axis_name, some Loc.wcs)
    else if pyTruthyKeys extra_coords then
      match findNameInArray supported_names ((extra_coords.getD []) ) with
      | Except.error err => Except.error err
      | Except.ok axis_name2 =>
        if pyTruthyName axis_name2 then
          Except.ok (axis_name2, some Loc.extra_coords)
        else
          Except.ok (axis_name2, none)
    else
      Except.ok (axis_name, none)

/-- A rendering of a supported-name list inside an accessor error message,
modelling the interpolation of the numpy array into the f-string: every
alias appears verbatim in the rendered text. -/
def renderNames (names : List String) : String :=
  List.foldr (fun n acc => n ++ " " ++ acc) "" names

/-- The module-level global names bound to supported-name lists in
`spectrogram.py`, as looked up when an accessor's f-string is evaluated.
A name not bound at module level resolves to `none` and its use raises a
`NameError`. -/
def moduleGlobalValue : String → Option (List String)
  | "SUPPORTED_LONGITUDE_NAMES" => some SUPPORTED_LONGITUDE_NAMES
  | "SUPPORTED_LATITUDE_NAMES" => some SUPPORTED_LATITUDE_NAMES
  | "SUPPORTED_SPECTRAL_NAMES" => some SUPPORTED_SPECTRAL_NAMES
  | "SUPPORTED_TIME_NAMES" => some SUPPORTED_TIME_NAMES
  | "SUPPORTED_EXPOSURE_NAMES" => some SUPPORTED_EXPOSURE_NAMES
  | _ => none

/-- The exception produced by an accessor whose cached axis name is absent:
it evaluates `raise ValueError(quantity + AXIS_NOT_FOUND_ERROR + f"...")`
where the f-string references the global `referencedGlobal`.  If that global
is defined, a `ValueError` carrying the quantity and the rendered alias list
is raised; if it is not defined, evaluating the f-string itself raises a
`NameError` before any `ValueError` can be constructed. -/
def accessorFailure (quantity referencedGlobal : String) : PyError :=
  match moduleGlobalValue referencedGlobal with
  | some names =>
    PyError.valueError (quantity ++ AXIS_NOT_FOUND_ERROR ++ renderNames names)
  | none => PyError.nameError ("name " ++ referencedGlobal ++ " is not defined")

/-- Failure of the `spectral_axis` accessor: references
`SUPPORTED_SPECTRAL_NAMES`. -/
def spectralAxisFailure : PyError :=
  accessorFailure "Spectral" "SUPPORTED_SPECTRAL_NAMES"

/-- Failure of the `time` accessor: the source references
`SUPPORTED_TIMES_NAMES` (a typo, no such global exists). -/
def timeFailure : PyError :=
  accessorFailure "Time" "SUPPORTED_TIMES_NAMES"

/-- Failure of the `exposure_time` accessor: references
`SUPPORTED_EXPOSURE_NAMES`. -/
def exposureTimeFailure : PyError :=
  accessorFailure "Exposure time" "SUPPORTED_EXPOSURE_NAMES"

/-- Failure of the `lon` accessor: references `SUPPORTED_LONGITUDE_NAMES`. -/
def lonFailure : PyError :=
  accessorFailure "Longitude" "SUPPORTED_LONGITUDE_NAMES"

/-- Failure of the `lat` accessor: the source references
`SUPPORTED_LATITUDE_NAME` (a typo, no such global exists). -/
def latFailure : PyError :=
  accessorFailure "Latitude" "SUPPORTED_LATITUDE_NAME"

/-- An astropy unit, reduced to what the exposure-time code inspects: the
integer exponent `sExp` of the seconds base in the unit's dimensional
decomposition, and an opaque identifier `rest` for the time-free factor. -/
structure AUnit where
  sExp : Int
  rest : Nat
deriving DecidableEq, Repr

/-- Test `u.s in unit.decompose().bases`: the seconds base appears in the
decomposition exactly when its exponent is nonzero. -/
def sInBases (a : AUnit) : Bool := a.sExp != 0

/-- Division `unit / u.s`. -/
def unitDivS (a : AUnit) : AUnit := { a with sExp := a.sExp - 1 }

/-- Multiplication `unit * u.s`. -/
def unitMulS (a : AUnit) : AUnit := { a with sExp := a.sExp + 1 }

/-- The value of `self.exposure_time.to(u.s).value`: either a Python scalar
or a per-exposure numpy array, already converted to seconds. -/
inductive ExposureVal where
  | scalar : ℚ → ExposureVal
  | array : List ℚ → ExposureVal
deriving DecidableEq, Repr

/-- The exposure time after the reshape step of
`apply_exposure_time_correction`: a scalar, or a per-exposure array shaped so
that broadcasting divides along the first data axis. -/
inductive BExp where
  | scalar : ℚ → BExp
  | colvec : List ℚ → BExp
deriving DecidableEq, Repr

/-- A data array grouped by its first axis: `rows.length` is the extent of
the first (exposure) axis and each row is the flattened remainder. -/
abbrev Arr : Type := List (List ℚ)

/-- The broadcast-ready value the reshape step produces from a resolved
exposure time when the dimensionality check passes: a scalar stays a scalar,
a per-exposure array becomes a first-axis column vector. -/
def bexpOf : ExposureVal → BExp
  | ExposureVal.scalar t => BExp.scalar t
  | ExposureVal.array ts => BExp.colvec ts

/-- numpy broadcast division of a data array by a (reshaped) exposure time:
a scalar divides every element; a per-exposure column vector divides row `i`
by its entry `i`, stretching a length-one vector over all rows; any other
shape combination raises a broadcast `ValueError`. -/
def npDivRows (rows : Arr) : BExp → Except PyError Arr
  | BExp.scalar t => Except.ok (rows.map (fun r => r.map (fun x => x / t)))
  | BExp.colvec ts =>
    if rows.length = ts.length then
      Except.ok (List.zipWith (fun r t => r.map (fun x => x / t)) rows ts)
    else if ts.length = 1 then
      Except.ok (rows.map (fun r => r.map (fun x => x / ts.headI)))
    else
      Except.error (PyError.valueError BROADCAST_VALUE_ERROR)

/-- numpy broadcast multiplication of a data array by a (reshaped) exposure
time, the mirror of `npDivRows`. -/
def npMulRows (rows : Arr) : BExp → Except PyError Arr
  | BExp.scalar t => Except.ok (rows.map (fun r => r.map (fun x => x * t)))
  | BExp.colvec ts =>
    if rows.length = ts.length then
      Except.ok (List.zipWith (fun r t => r.map (fun x => x * t)) rows ts)
    else if ts.length = 1 then
      Except.ok (rows.map (fun r => r.map (fun x => x * ts.headI)))
    else
      Except.error (PyError.valueError BROADCAST_VALUE_ERROR)

/-- The list comprehension `[old_data / exposure_time for old_data in
old_data_arrays]`, evaluated left to right with the first numpy error
propagating. -/
def divEach : List Arr → BExp → Except PyError (List Arr)
  | [], _ => Except.ok []
  | a :: rest, e =>
    match npDivRows a e with
    | Except.error err => Except.error err
    | Except.ok na =>
      match divEach rest e with
      | Except.error err => Except.error err
      | Except.ok nrest => Except.ok (na :: nrest)

/-- The list comprehension `[old_data * exposure_time for old_data in
old_data_arrays]`, evaluated left to right with the first numpy error
propagating. -/
def mulEach : List Arr → BExp → Except PyError (List Arr)
  | [], _ => Except.ok []
  | a :: rest, e =>
    match npMulRows a e with
    | Except.error err => Except.error err
    | Except.ok na =>
      match mulEach rest e with
      | Except.error err => Except.error err
      | Except.ok nrest => Except.ok (na :: nrest)

/-- Embedding of `_calculate_exposure_time_correction`: unless forced, raise the apply
error when the seconds base appears in the unit's decomposition; otherwise
divide every array by the exposure time and divide the unit by seconds. -/
def calculateExposureTimeCorrection (old_data_arrays : List Arr)
    (old_unit : AUnit) (exposure_time : BExp) (force : Bool) :
    Except PyError (List Arr × AUnit) :=
  if force = false ∧ sInBases old_unit = true then
    Except.error (PyError.valueError APPLY_EXPOSURE_TIME_ERROR)
  else
    match divEach old_data_arrays exposure_time with
    | Except.error err => Except.error err
    | Except.ok new_data_arrays => Except.ok (new_data_arrays, unitDivS old_unit)

/-- Embedding of `_uncalculate_exposure_time_correction`: unless forced, raise the undo
error when the seconds base appears in the decomposition of `unit * seconds`;
otherwise multiply every array by the exposure time and multiply the unit by
seconds. -/
def uncalculateExposureTimeCorrection (old_data_arrays : List Arr)
    (old_unit : AUnit) (exposure_time : BExp) (force : Bool) :
    Except PyError (List Arr × AUnit) :=
  if force = false ∧ sInBases (unitMulS old_unit) = true then
    Except.error (PyError.valueError UNDO_EXPOSURE_TIME_ERROR)
  else
    match mulEach old_data_arrays exposure_time with
    | Except.error err => Except.error err
    | Except.ok new_data_arrays => Except.ok (new_data_arrays, unitMulS old_unit)

/-- The state of a `SpectrogramCube` relevant to exposure-time correction:
its number of data dimensions `ndim` (`len(self.dimensions)`), its data and
uncertainty arrays grouped by the first axis, its unit, and its resolved
exposure time in seconds.  The model presupposes the exposure-time axis
resolved (the `exposure_time` accessor succeeded). -/
structure SpecCube where
  ndim : Nat
  rows : Arr
  urows : Arr
  unit : AUnit
  exposure : ExposureVal
deriving DecidableEq, Repr

/-- The reshape step of `apply_exposure_time_correction`: a scalar exposure
time is used as-is (`np.isscalar` branch not taken); a per-exposure array is
accepted for 1, 2 or 3 data dimensions, reshaped to broadcast along the
first axis, and any other dimensionality raises the dimensionality
`ValueError`. -/
def reshapeExposure (c : SpecCube) : Except PyError BExp :=
  match c.exposure with
  | ExposureVal.scalar t => Except.ok (BExp.scalar t)
  | ExposureVal.array ts =>
    if c.ndim = 1 ∨ c.ndim = 2 ∨ c.ndim = 3 then
      Except.ok (BExp.colvec ts)
    else
      Except.error (PyError.valueError INVALID_DIMENSIONALITY_ERROR)

/-- Embedding of `SpectrogramCube.apply_exposure_time_correction`: reshape the exposure
time (raising on unsupported dimensionality for array exposure times), then
apply or undo the correction on `(self.data, self.uncertainty.array)`, and
return a new cube with the new arrays and unit; WCS, extra coordinates, mask
and metadata pass through unchanged (hence `ndim` and `exposure` are
preserved). -/
def applyExposureTimeCorrection (c : SpecCube) (undo : Bool) (force : Bool) :
    Except PyError SpecCube :=
  match reshapeExposure c with
  | Except.error err => Except.error err
  | Except.ok e =>
    match (if undo then uncalculateExposureTimeCorrection [c.rows, c.urows] c.unit e force
           else calculateExposureTimeCorrection [c.rows, c.urows] c.unit e force) with
    | Except.error err => Except.error err
    | Except.ok (arrs, new_unit) =>
      Except.ok { c with rows := arrs.getD 0 [], urows := arrs.getD 1 [],
                         unit := new_unit }

/-- Total description of the element-wise division the correction performs:
a scalar divides every element, a per-exposure array divides row `i` by
entry `i`. -/
def divAll (rows : Arr) : ExposureVal → Arr
  | ExposureVal.scalar t => rows.map (fun r => r.map (fun x => x / t))
  | ExposureVal.array ts => List.zipWith (fun r t => r.map (fun x => x / t)) rows ts

/-- Total description of the element-wise multiplication the undo performs. -/
def mulAll (rows : Arr) : ExposureVal → Arr
  | ExposureVal.scalar t => rows.map (fun r => r.map (fun x => x * t))
  | ExposureVal.array ts => List.zipWith (fun r t => r.map (fun x => x * t)) rows ts

/-- The dimensionality invariant of the spectrogram data model: 1, 2 or 3
data dimensions. -/
def DimsOK (c : SpecCube) : Prop := c.ndim = 1 ∨ c.ndim = 2 ∨ c.ndim = 3

/-- Shape coherence between a per-exposure exposure-time array and the data
and uncertainty arrays: one entry per first-axis slice. -/
def WellFormedExposure (c : SpecCube) : Prop :=
  ∀ ts, c.exposure = ExposureVal.array ts →
    ts.length = c.rows.length ∧ ts.length = c.urows.length

/-- A non-degenerate exposure time: every value is nonzero. -/
def ExposureNonzero (c : SpecCube) : Prop :=
  (∀ t, c.exposure = ExposureVal.scalar t → t ≠ 0) ∧
  (∀ ts, c.exposure = ExposureVal.array ts → ∀ t ∈ ts, t ≠ 0)

/-! ## Helper lemmas -/

lemma unitMulS_unitDivS (a : AUnit) : unitMulS (unitDivS a) = a := by
  cases a
  simp [unitMulS, unitDivS]

lemma reshapeExposure_of_dims (c : SpecCube) (hd : DimsOK c) :
    reshapeExposure c = Except.ok (bexpOf c.exposure) := by
  cases hexp : c.exposure with
  | scalar t => simp [reshapeExposure, hexp, bexpOf]
  | array ts =>
    rcases hd with h | h | h <;> simp [reshapeExposure, hexp, bexpOf, h]

lemma reshapeExposure_of_scalar (c : SpecCube) (t : ℚ)
    (hexp : c.exposure = ExposureVal.scalar t) :
    reshapeExposure c = Except.ok (BExp.scalar t) := by
  simp [reshapeExposure, hexp]

lemma npDivRows_of_wf (rows : Arr) (e : ExposureVal)
    (h : ∀ ts, e = ExposureVal.array ts → ts.length = rows.length) :
    npDivRows rows (bexpOf e) = Except.ok (divAll rows e) := by
  cases e with
  | scalar t => rfl
  | array ts =>
    simp [bexpOf, npDivRows, divAll, if_pos ((h ts rfl).symm)]

lemma npMulRows_of_wf (rows : Arr) (e : ExposureVal)
    (h : ∀ ts, e = ExposureVal.array ts → ts.length = rows.length) :
    npMulRows rows (bexpOf e) = Except.ok (mulAll rows e) := by
  cases e with
  | scalar t => rfl
  | array ts =>
    simp [bexpOf, npMulRows, mulAll, if_pos ((h ts rfl).symm)]

lemma divEach_pair {r u nr nu : Arr} {e : BExp}
    (hr : npDivRows r e = Except.ok nr) (hu : npDivRows u e = Except.ok nu) :
    divEach [r, u] e = Except.ok [nr, nu] := by
  simp [divEach, hr, hu]

lemma mulEach_pair {r u nr nu : Arr} {e : BExp}
    (hr : npMulRows r e = Except.ok nr) (hu : npMulRows u e = Except.ok nu) :
    mulEach [r, u] e = Except.ok [nr, nu] := by
  simp [mulEach, hr, hu]

lemma apply_ok (c : SpecCube) (force : Bool) (hd : DimsOK c) (hw : WellFormedExposure c)
    (hg : sInBases c.unit = false ∨ force = true) :
    applyExposureTimeCorrection c false force =
      Except.ok { c with rows := divAll c.rows c.exposure,
                         urows := divAll c.urows c.exposure,
                         unit := unitDivS c.unit } := by
  have hre := reshapeExposure_of_dims c hd
  have h1 := npDivRows_of_wf c.rows c.exposure (fun ts h => (hw ts h).1)
  have h2 := npDivRows_of_wf c.urows c.exposure (fun ts h => (hw ts h).2)
  have hcond : ¬(force = false ∧ sInBases c.unit = true) := by
    rcases hg with h | h
    · intro hc
      rw [h] at hc
      exact Bool.noConfusion hc.2
    · intro hc
      rw [h] at hc
      exact Bool.noConfusion hc.1
  simp [applyExposureTimeCorrection, hre, calculateExposureTimeCorrection,
        if_neg hcond, divEach_pair h1 h2]

lemma undo_ok (c : SpecCube) (force : Bool) (hd : DimsOK c) (hw : WellFormedExposure c)
    (hg : sInBases (unitMulS c.unit) = false ∨ force = true) :
    applyExposureTimeCorrection c true force =
      Except.ok { c with rows := mulAll c.rows c.exposure,
                         urows := mulAll c.urows c.exposure,
                         unit := unitMulS c.unit } := by
  have hre := reshapeExposure_of_dims c hd
  have h1 := npMulRows_of_wf c.rows c.exposure (fun ts h => (hw ts h).1)
  have h2 := npMulRows_of_wf c.urows c.exposure (fun ts h => (hw ts h).2)
  have hcond : ¬(force = false ∧ sInBases (unitMulS c.unit) = true) := by
    rcases hg with h | h
    · intro hc
      rw [h] at hc
      exact Bool.noConfusion hc.2
    · intro hc
      rw [h] at hc
      exact Bool.noConfusion hc.1
  simp [applyExposureTimeCorrection, hre, uncalculateExposureTimeCorrection,
        if_neg hcond, mulEach_pair h1 h2]

lemma apply_guard_err (c : SpecCube) (hd : DimsOK c) (hg : sInBases c.unit = true) :
    applyExposureTimeCorrection c false false =
      Except.error (PyError.valueError APPLY_EXPOSURE_TIME_ERROR) := by
  have hre := reshapeExposure_of_dims c hd
  simp [applyExposureTimeCorrection, hre, calculateExposureTimeCorrection, hg]

lemma undo_guard_err (c : SpecCube) (hd : DimsOK c)
    (hg : sInBases (unitMulS c.unit) = true) :
    applyExposureTimeCorrection c true false =
      Except.error (PyError.valueError UNDO_EXPOSURE_TIME_ERROR) := by
  have hre := reshapeExposure_of_dims c hd
  simp [applyExposureTimeCorrection, hre, uncalculateExposureTimeCorrection, hg]

lemma map_div_mul_cancel (r : List ℚ) (t : ℚ) (ht : t ≠ 0) :
    (r.map (fun x => x / t)).map (fun x => x * t) = r := by
  induction r with
  | nil => rfl
  | cons a r ih => simp [ih, div_mul_cancel₀ a ht]

lemma zipWith_div_mul_cancel (rows : Arr) (ts : List ℚ)
    (hlen : rows.length = ts.length) (hnz : ∀ t ∈ ts, t ≠ 0) :
    List.zipWith (fun r t => r.map (fun x => x * t))
      (List.zipWith (fun r t => r.map (fun x => x / t)) rows ts) ts = rows := by
  induction rows generalizing ts with
  | nil => rfl
  | cons r rows ih =>
    cases ts with
    | nil => simp at hlen
    | cons t ts =>
      have h0 : t ≠ 0 := hnz t (by simp)
      simp only [List.zipWith]
      rw [map_div_mul_cancel r t h0, ih ts (by simpa using hlen)
          (fun x hx => hnz x (by simp [hx]))]

lemma map_map_div_mul_cancel (rows : Arr) (t : ℚ) (ht : t ≠ 0) :
    (rows.map (fun r => r.map (fun x => x / t))).map (fun r => r.map (fun x => x * t)) =
      rows := by
  induction rows with
  | nil => rfl
  | cons r rows ih => simp only [List.map_cons, map_div_mul_cancel r t ht, ih]

lemma mulAll_divAll_cancel (rows : Arr) (e : ExposureVal)
    (hlen : ∀ ts, e = ExposureVal.array ts → ts.length = rows.length)
    (hnzs : ∀ t, e = ExposureVal.scalar t → t ≠ 0)
    (hnza : ∀ ts, e = ExposureVal.array ts → ∀ t ∈ ts, t ≠ 0) :
    mulAll (divAll rows e) e = rows := by
  cases e with
  | scalar t =>
    simpa only [divAll, mulAll] using map_map_div_mul_cancel rows t (hnzs t rfl)
  | array ts =>
    exact zipWith_div_mul_cancel rows ts (hlen ts rfl).symm (hnza ts rfl)

lemma divAll_length (rows : Arr) (e : ExposureVal)
    (hlen : ∀ ts, e = ExposureVal.array ts → ts.length = rows.length) :
    (divAll rows e).length = rows.length := by
  cases e with
  | scalar t => simp [divAll]
  | array ts => simp [divAll, hlen ts rfl]

lemma zipWith_div_getD (rows : Arr) (ts : List ℚ) (i : Nat)
    (hlen : rows.length = ts.length) (hi : i < rows.length) :
    (List.zipWith (fun r t => r.map (fun x => x / t)) rows ts).getD i [] =
      (rows.getD i []).map (fun x => x / ts.getD i 0) := by
  induction rows generalizing ts i with
  | nil => exact absurd hi (Nat.not_lt_zero i)
  | cons r rows ih =>
    cases ts with
    | nil => simp at hlen
    | cons t ts =>
      cases i with
      | zero => rfl
      | succ j =>
        simpa using ih ts j (by simpa using hlen) (by simpa using hi)

lemma mem_of_isinMatches {supported names : List String} {m : String}
    (h : isinMatches supported names = [m]) : m ∈ supported := by
  have hm : m ∈ isinMatches supported names := by rw [h]; simp
  have := List.of_mem_filter hm
  simpa using this

/-! ## Claim C1 -/

/-- Claim C1: for every cube with a resolved exposure-time axis (and the data
model's dimensionality and shape invariants), `apply_exposure_time_correction`
with `undo=False, force=False` raises the `ApplyExposureTimeError`-kind
`ValueError` exactly when the unit's dimensional decomposition contains the
seconds base unit; and whenever the guard passes (or `force=True`), the
returned cube's data and uncertainty are the originals divided element-wise
by the broadcast exposure time in seconds, and the new unit is the old unit
divided by seconds. -/
theorem claim1_apply_guard_and_result (c : SpecCube) (hd : DimsOK c)
    (hw : WellFormedExposure c) :
    (applyExposureTimeCorrection c false false =
        Except.error (PyError.valueError APPLY_EXPOSURE_TIME_ERROR) ↔
      sInBases c.unit = true) ∧
    (∀ force : Bool, sInBases c.unit = false ∨ force = true →
      applyExposureTimeCorrection c false force =
        Except.ok { c with rows := divAll c.rows c.exposure,
                           urows := divAll c.urows c.exposure,
                           unit := unitDivS c.unit }) := by
  constructor
  · constructor
    · intro herr
      by_contra hne
      have hfalse : sInBases c.unit = false := by
        cases hb : sInBases c.unit
        · rfl
        · exact absurd hb hne
      rw [apply_ok c false hd hw (Or.inl hfalse)] at herr
      exact Except.noConfusion herr
    · intro hg
      exact apply_guard_err c hd hg
  · intro force hg
    exact apply_ok c force hd hw hg

/-- A concrete well-formed 2-D cube with a per-exposure exposure time and a
time-free unit, used to witness claim C1. -/
def cubeC1 : SpecCube :=
  { ndim := 2, rows := [[4, 6]], urows := [[2, 2]],
    unit := { sExp := 0, rest := 5 }, exposure := ExposureVal.array [2] }

/-- Witness for claim C1 at `cubeC1`. -/
theorem claim1_witness :
    DimsOK cubeC1 ∧ WellFormedExposure cubeC1 ∧
    ((applyExposureTimeCorrection cubeC1 false false =
        Except.error (PyError.valueError APPLY_EXPOSURE_TIME_ERROR) ↔
      sInBases cubeC1.unit = true) ∧
    (∀ force : Bool, sInBases cubeC1.unit = false ∨ force = true →
      applyExposureTimeCorrection cubeC1 false force =
        Except.ok { cubeC1 with rows := divAll cubeC1.rows cubeC1.exposure,
                                urows := divAll cubeC1.urows cubeC1.exposure,
                                unit := unitDivS cubeC1.unit })) := by
  have hd : DimsOK cubeC1 := Or.inr (Or.inl rfl)
  have hw : WellFormedExposure cubeC1 := by
    intro ts h
    simp only [cubeC1] at h
    injection h with h2
    subst h2
    exact ⟨rfl, rfl⟩
  exact ⟨hd, hw, claim1_apply_guard_and_result cubeC1 hd hw⟩

/-! ## Claim C2 -/

/-- Claim C2: for every cube with a resolved exposure-time axis (and the data
model's invariants), `apply_exposure_time_correction` with `undo=True,
force=False` raises the `UndoExposureTimeError`-kind `ValueError` exactly
when the decomposition of `unit * seconds` contains the seconds base unit
(that is, when the unit does not already carry one inverse power of time,
so the guard validation fails); and when the guard passes (or `force=True`),
the returned cube's data and uncertainty are the originals multiplied
element-wise by the exposure time in seconds, and the new unit is the old
unit times seconds. -/
theorem claim2_undo_guard_and_result (c : SpecCube) (hd : DimsOK c)
    (hw : WellFormedExposure c) :
    (applyExposureTimeCorrection c true false =
        Except.error (PyError.valueError UNDO_EXPOSURE_TIME_ERROR) ↔
      sInBases (unitMulS c.unit) = true) ∧
    (∀ force : Bool, sInBases (unitMulS c.unit) = false ∨ force = true →
      applyExposureTimeCorrection c true force =
        Except.ok { c with rows := mulAll c.rows c.exposure,
                           urows := mulAll c.urows c.exposure,
                           unit := unitMulS c.unit }) := by
  constructor
  · constructor
    · intro herr
      by_contra hne
      have hfalse : sInBases (unitMulS c.unit) = false := by
        cases hb : sInBases (unitMulS c.unit)
        · rfl
        · exact absurd hb hne
      rw [undo_ok c false hd hw (Or.inl hfalse)] at herr
      exact Except.noConfusion herr
    · intro hg
      exact undo_guard_err c hd hg
  · intro force hg
    exact undo_ok c force hd hw hg

/-- A concrete well-formed 2-D cube whose unit carries one inverse power of
time, used to witness claim C2. -/
def cubeC2 : SpecCube :=
  { ndim := 2, rows := [[2, 3]], urows := [[1, 1]],
    unit := { sExp := -1, rest := 5 }, exposure := ExposureVal.array [2] }

/-- Witness for claim C2 at `cubeC2`. -/
theorem claim2_witness :
    DimsOK cubeC2 ∧ WellFormedExposure cubeC2 ∧
    ((applyExposureTimeCorrection cubeC2 true false =
        Except.error (PyError.valueError UNDO_EXPOSURE_TIME_ERROR) ↔
      sInBases (unitMulS cubeC2.unit) = true) ∧
    (∀ force : Bool, sInBases (unitMulS cubeC2.unit) = false ∨ force = true →
      applyExposureTimeCorrection cubeC2 true force =
        Except.ok { cubeC2 with rows := mulAll cubeC2.rows cubeC2.exposure,
                                urows := mulAll cubeC2.urows cubeC2.exposure,
                                unit := unitMulS cubeC2.unit })) := by
  have hd : DimsOK cubeC2 := Or.inr (Or.inl rfl)
  have hw : WellFormedExposure cubeC2 := by
    intro ts h
    simp only [cubeC2] at h
    injection h with h2
    subst h2
    exact ⟨rfl, rfl⟩
  exact ⟨hd, hw, claim2_undo_guard_and_result cubeC2 hd hw⟩

/-! ## Claim C3 -/

/-- Claim C3: for every cube with a resolved, non-degenerate (nowhere-zero)
exposure time and a unit whose decomposition contains no seconds base (the
spec's "no inverse-time" state), applying the exposure-time correction and
then undoing it on the result reproduces the original data array exactly
(hence within any floating-point tolerance; the model computes over ℚ) and
restores the original unit exactly. -/
theorem claim3_roundtrip (c : SpecCube) (hd : DimsOK c) (hw : WellFormedExposure c)
    (hu : sInBases c.unit = false) (hnz : ExposureNonzero c) :
    ∃ c1 c2 : SpecCube,
      applyExposureTimeCorrection c false false = Except.ok c1 ∧
      applyExposureTimeCorrection c1 true false = Except.ok c2 ∧
      c2.rows = c.rows ∧ c2.unit = c.unit := by
  have h1 := apply_ok c false hd hw (Or.inl hu)
  have hw1 : WellFormedExposure
      { c with rows := divAll c.rows c.exposure, urows := divAll c.urows c.exposure,
               unit := unitDivS c.unit } := by
    intro ts h
    have h' : c.exposure = ExposureVal.array ts := h
    refine ⟨?_, ?_⟩
    · show ts.length = (divAll c.rows c.exposure).length
      rw [divAll_length c.rows c.exposure (fun ts2 h2 => (hw ts2 h2).1)]
      exact (hw ts h').1
    · show ts.length = (divAll c.urows c.exposure).length
      rw [divAll_length c.urows c.exposure (fun ts2 h2 => (hw ts2 h2).2)]
      exact (hw ts h').2
  have hg1 : sInBases (unitMulS (unitDivS c.unit)) = false := by
    rw [unitMulS_unitDivS]
    exact hu
  have h2 := undo_ok
    { c with rows := divAll c.rows c.exposure, urows := divAll c.urows c.exposure,
             unit := unitDivS c.unit } false hd hw1 (Or.inl hg1)
  refine ⟨_, _, h1, h2, ?_, ?_⟩
  · show mulAll (divAll c.rows c.exposure) c.exposure = c.rows
    exact mulAll_divAll_cancel c.rows c.exposure (fun ts h => (hw ts h).1) hnz.1 hnz.2
  · show unitMulS (unitDivS c.unit) = c.unit
    exact unitMulS_unitDivS c.unit

/-- A concrete well-formed 2-D cube with nowhere-zero exposure time and a
time-free unit, used to witness claim C3. -/
def cubeC3 : SpecCube :=
  { ndim := 2, rows := [[4, 6]], urows := [[2, 2]],
    unit := { sExp := 0, rest := 5 }, exposure := ExposureVal.array [2] }

/-- Witness for claim C3 at `cubeC3`. -/
theorem claim3_witness :
    DimsOK cubeC3 ∧ WellFormedExposure cubeC3 ∧
    sInBases cubeC3.unit = false ∧ ExposureNonzero cubeC3 ∧
    ∃ c1 c2 : SpecCube,
      applyExposureTimeCorrection cubeC3 false false = Except.ok c1 ∧
      applyExposureTimeCorrection c1 true false = Except.ok c2 ∧
      c2.rows = cubeC3.rows ∧ c2.unit = cubeC3.unit := by
  have hd : DimsOK cubeC3 := Or.inr (Or.inl rfl)
  have hw : WellFormedExposure cubeC3 := by
    intro ts h
    simp only [cubeC3] at h
    injection h with h2
    subst h2
    exact ⟨rfl, rfl⟩
  have hu : sInBases cubeC3.unit = false := rfl
  have hnz : ExposureNonzero cubeC3 := by
    constructor
    · intro t h
      simp [cubeC3] at h
    · intro ts h
      simp only [cubeC3] at h
      injection h with h2
      subst h2
      decide
  exact ⟨hd, hw, hu, hnz, claim3_roundtrip cubeC3 hd hw hu hnz⟩

/-! ## Claim C4 -/

/-- Counterexample to claim C4 as stated: with two supported time aliases
present in the physical-type list ("time" at axis index 0 and "TIME" at axis
index 1), axis-name resolution raises a `TypeError` from the `int(...)`
conversion in `_find_name_in_array` instead of returning the lowest-index
match with source WCS. -/
theorem claim4_counterexample :
    findAxisName SUPPORTED_TIME_NAMES ["time", "TIME"] none =
      Except.error (PyError.typeError SIZE1_TYPE_ERROR) := by rfl

/-- Claim C4 (amended): when two or more elements of the physical-type list
are members of the supported-name set, resolution fails with a `TypeError`
rather than returning the lowest-index match; when exactly one element
matches, it is returned with source WCS regardless of the side table (the
supported-name sets never contain the empty string, captured by `hne`). -/
theorem claim4_wcs_unique_match (supported types : List String)
    (extra : Option (List String)) (hne : "" ∉ supported) :
    (2 ≤ (isinMatches supported types).length →
      findAxisName supported types extra =
        Except.error (PyError.typeError SIZE1_TYPE_ERROR)) ∧
    (∀ m, isinMatches supported types = [m] →
      findAxisName supported types extra = Except.ok (some m, some Loc.wcs)) := by
  constructor
  · intro h2
    rcases hlist : isinMatches supported types with _ | ⟨a, _ | ⟨b, rest⟩⟩
    · rw [hlist] at h2
      simp at h2
    · rw [hlist] at h2
      simp at h2
    · simp [findAxisName, findNameInArray, hlist]
  · intro m hm
    have hmem := mem_of_isinMatches hm
    have hmne : m ≠ "" := fun h => hne (h ▸ hmem)
    simp [findAxisName, findNameInArray, hm, pyTruthyName, hmne]

/-- Witness for (amended) claim C4: with exactly one supported alias in the
physical-type list, resolution returns it with source WCS even though the
side table's key would also match. -/
theorem claim4_witness :
    ("" ∉ SUPPORTED_TIME_NAMES) ∧
    ((2 ≤ (isinMatches SUPPORTED_TIME_NAMES ["foo", "time"]).length →
      findAxisName SUPPORTED_TIME_NAMES ["foo", "time"] (some ["TIME"]) =
        Except.error (PyError.typeError SIZE1_TYPE_ERROR)) ∧
    (∀ m, isinMatches SUPPORTED_TIME_NAMES ["foo", "time"] = [m] →
      findAxisName SUPPORTED_TIME_NAMES ["foo", "time"] (some ["TIME"]) =
        Except.ok (some m, some Loc.wcs))) :=
  ⟨by decide,
   claim4_wcs_unique_match SUPPORTED_TIME_NAMES ["foo", "time"] (some ["TIME"])
     (by decide)⟩

/-! ## Claim C5 -/

/-- Counterexample to claim C5 as stated: with no physical-type match but two
supported keys in the side table, resolution raises a `TypeError` instead of
returning a key with source extra_coords. -/
theorem claim5_counterexample :
    findAxisName SUPPORTED_TIME_NAMES ["foo"] (some ["time", "TIME"]) =
      Except.error (PyError.typeError SIZE1_TYPE_ERROR) := by rfl

/-- Claim C5 (amended): when no element of the physical-type list matches
and exactly one key of the side table does, resolution returns that key with
source extra_coords; when additionally no side-table key matches, or the
side table is empty or absent, resolution returns with both name and source
absent, without failing. -/
theorem claim5_side_table_fallback (supported types : List String)
    (extra : Option (List String)) (hne : "" ∉ supported)
    (hw : isinMatches supported types = []) :
    (∀ keys k, extra = some keys → isinMatches supported keys = [k] →
      findAxisName supported types extra =
        Except.ok (some k, some Loc.extra_coords)) ∧
    ((∀ keys, extra = some keys → isinMatches supported keys = []) →
      findAxisName supported types extra = Except.ok (none, none)) := by
  have hwcs : findNameInArray supported types = Except.ok none := by
    simp [findNameInArray, hw]
  constructor
  · intro keys k hk hmk
    subst hk
    have hkeys_ne : keys ≠ [] := by
      intro h0
      subst h0
      simp [isinMatches] at hmk
    have hinner : findNameInArray supported keys = Except.ok (some k) := by
      simp [findNameInArray, hmk]
    have hkmem := mem_of_isinMatches hmk
    have hkne : k ≠ "" := fun h => hne (h ▸ hkmem)
    unfold findAxisName
    rw [hwcs]
    simp [pyTruthyName, pyTruthyKeys, hkeys_ne, hinner, hkne]
  · intro hnk
    cases extra with
    | none =>
      unfold findAxisName
      rw [hwcs]
      simp [pyTruthyName, pyTruthyKeys]
    | some keys =>
      by_cases h0 : keys = []
      · subst h0
        unfold findAxisName
        rw [hwcs]
        simp [pyTruthyName, pyTruthyKeys]
      · have hk := hnk keys rfl
        have hinner : findNameInArray supported keys = Except.ok none := by
          simp [findNameInArray, hk]
        unfold findAxisName
        rw [hwcs]
        simp [pyTruthyName, pyTruthyKeys, h0, hinner]

/-- Witness for (amended) claim C5: no physical-type match and a unique
side-table key match resolves to that key with source extra_coords. -/
theorem claim5_witness :
    ("" ∉ SUPPORTED_TIME_NAMES) ∧
    isinMatches SUPPORTED_TIME_NAMES ["foo"] = [] ∧
    ((∀ keys k, (some ["Time"] : Option (List String)) = some keys →
        isinMatches SUPPORTED_TIME_NAMES keys = [k] →
      findAxisName SUPPORTED_TIME_NAMES ["foo"] (some ["Time"]) =
        Except.ok (some k, some Loc.extra_coords)) ∧
    ((∀ keys, (some ["Time"] : Option (List String)) = some keys →
        isinMatches SUPPORTED_TIME_NAMES keys = []) →
      findAxisName SUPPORTED_TIME_NAMES ["foo"] (some ["Time"]) =
        Except.ok (none, none))) :=
  ⟨by decide, by decide,
   claim5_side_table_fallback SUPPORTED_TIME_NAMES ["foo"] (some ["Time"])
     (by decide) (by decide)⟩

/-! ## Claim C6 -/

/-- Claim C6 divergence: the `time` and `lat` accessors' unresolved-axis
paths reference the undefined globals SUPPORTED_TIMES_NAMES and
SUPPORTED_LATITUDE_NAME (typos for the defined alias lists), so they fail
with a `NameError` that names neither the quantity nor any alias, while the
`spectral_axis`, `exposure_time` and `lon` accessors raise the intended
`ValueError` carrying the quantity name and the full rendered alias list. -/
theorem claim6_accessor_typo_divergence :
    timeFailure = PyError.nameError "name SUPPORTED_TIMES_NAMES is not defined" ∧
    latFailure = PyError.nameError "name SUPPORTED_LATITUDE_NAME is not defined" ∧
    spectralAxisFailure = PyError.valueError
      ("Spectral" ++ AXIS_NOT_FOUND_ERROR ++ renderNames SUPPORTED_SPECTRAL_NAMES) ∧
    exposureTimeFailure = PyError.valueError
      ("Exposure time" ++ AXIS_NOT_FOUND_ERROR ++ renderNames SUPPORTED_EXPOSURE_NAMES) ∧
    lonFailure = PyError.valueError
      ("Longitude" ++ AXIS_NOT_FOUND_ERROR ++ renderNames SUPPORTED_LONGITUDE_NAMES) :=
  ⟨rfl, rfl, rfl, rfl, rfl⟩

/-! ## Claim C9 -/

/-- Claim C9: on every input on which axis-name resolution returns, the
source is present exactly when the returned name is present (present in the
Python sense the accessors use: not `None` and not the falsy empty string);
it is never the case that exactly one of the two is absent. -/
theorem claim9_source_iff_name (supported types : List String)
    (extra : Option (List String)) (n : Option String) (l : Option Loc)
    (h : findAxisName supported types extra = Except.ok (n, l)) :
    l.isSome = pyTruthyName n := by
  unfold findAxisName at h
  rcases h1 : findNameInArray supported types with err | a
  · rw [h1] at h
    exact Except.noConfusion h
  · simp only [h1] at h
    by_cases hta : pyTruthyName a = true
    · rw [if_pos hta] at h
      injection h with hp
      injection hp with h3 h4
      subst h3
      subst h4
      simp [hta]
    · rw [if_neg hta] at h
      by_cases htk : pyTruthyKeys extra = true
      · rw [if_pos htk] at h
        rcases h2 : findNameInArray supported (extra.getD []) with err2 | b
        · rw [h2] at h
          exact Except.noConfusion h
        · simp only [h2] at h
          by_cases htb : pyTruthyName b = true
          · rw [if_pos htb] at h
            injection h with hp
            injection hp with h3 h4
            subst h3
            subst h4
            simp [htb]
          · rw [if_neg htb] at h
            injection h with hp
            injection hp with h3 h4
            subst h3
            subst h4
            simp only [Bool.not_eq_true] at htb
            simp [htb]
      · rw [if_neg htk] at h
        injection h with hp
        injection hp with h3 h4
        subst h3
        subst h4
        simp only [Bool.not_eq_true] at hta
        simp [hta]

/-- Witness for claim C9 at a concrete resolved input. -/
theorem claim9_witness :
    findAxisName SUPPORTED_TIME_NAMES ["time"] none =
      Except.ok (some "time", some Loc.wcs) ∧
    (some Loc.wcs : Option Loc).isSome = pyTruthyName (some "time") :=
  ⟨rfl, claim9_source_iff_name SUPPORTED_TIME_NAMES ["time"] none (some "time")
      (some Loc.wcs) rfl⟩

/-! ## Claim C7 -/

/-- Claim C7: for a 2-D cube of shape (N, M) with a resolved per-exposure
exposure-time array of length N (already in seconds) and a unit passing the
apply guard, the corrected data array keeps shape (N, M) and its row `i` is
the original row `i` divided element-wise by entry `i` of the exposure
array.  In this model the grouping of data by the first axis absorbs the
trailing-singleton reshape of the exposure array (identity for 1-D, one
singleton for 2-D, two for 3-D). -/
theorem claim7_broadcast_2d (c : SpecCube) (ts : List ℚ) (M : Nat)
    (hnd : c.ndim = 2) (hexp : c.exposure = ExposureVal.array ts)
    (hlen : ts.length = c.rows.length) (hulen : ts.length = c.urows.length)
    (hM : ∀ i, i < c.rows.length → (c.rows.getD i []).length = M)
    (hg : sInBases c.unit = false) :
    ∃ c2 : SpecCube,
      applyExposureTimeCorrection c false false = Except.ok c2 ∧
      c2.rows.length = c.rows.length ∧
      (∀ i, i < c.rows.length → (c2.rows.getD i []).length = M) ∧
      (∀ i, i < c.rows.length →
        c2.rows.getD i [] = (c.rows.getD i []).map (fun x => x / ts.getD i 0)) := by
  have hw : WellFormedExposure c := by
    intro ts2 h2
    rw [hexp] at h2
    injection h2 with h3
    subst h3
    exact ⟨hlen, hulen⟩
  have hd : DimsOK c := Or.inr (Or.inl hnd)
  have h1 := apply_ok c false hd hw (Or.inl hg)
  refine ⟨_, h1, ?_, ?_, ?_⟩
  · show (divAll c.rows c.exposure).length = c.rows.length
    exact divAll_length c.rows c.exposure (fun ts2 h2 => (hw ts2 h2).1)
  · intro i hi
    show ((divAll c.rows c.exposure).getD i []).length = M
    rw [hexp]
    show ((List.zipWith (fun r t => r.map (fun x => x / t)) c.rows ts).getD i []).length = M
    rw [zipWith_div_getD c.rows ts i hlen.symm hi, List.length_map]
    exact hM i hi
  · intro i hi
    show (divAll c.rows c.exposure).getD i [] =
      (c.rows.getD i []).map (fun x => x / ts.getD i 0)
    rw [hexp]
    exact zipWith_div_getD c.rows ts i hlen.symm hi

/-- A concrete 2-D cube of shape (2, 2) with a per-exposure exposure-time
array of length 2, used to witness claim C7. -/
def cubeC7 : SpecCube :=
  { ndim := 2, rows := [[4, 6], [9, 3]], urows := [[2, 2], [1, 1]],
    unit := { sExp := 0, rest := 5 }, exposure := ExposureVal.array [2, 3] }

/-- Witness for claim C7 at `cubeC7`. -/
theorem claim7_witness :
    cubeC7.ndim = 2 ∧ cubeC7.exposure = ExposureVal.array [2, 3] ∧
    ([(2 : ℚ), 3].length = cubeC7.rows.length) ∧
    ([(2 : ℚ), 3].length = cubeC7.urows.length) ∧
    (∀ i, i < cubeC7.rows.length → (cubeC7.rows.getD i []).length = 2) ∧
    sInBases cubeC7.unit = false ∧
    ∃ c2 : SpecCube,
      applyExposureTimeCorrection cubeC7 false false = Except.ok c2 ∧
      c2.rows.length = cubeC7.rows.length ∧
      (∀ i, i < cubeC7.rows.length → (c2.rows.getD i []).length = 2) ∧
      (∀ i, i < cubeC7.rows.length →
        c2.rows.getD i [] =
          (cubeC7.rows.getD i []).map (fun x => x / [(2 : ℚ), 3].getD i 0)) := by
  have hM : ∀ i, i < cubeC7.rows.length → (cubeC7.rows.getD i []).length = 2 := by
    intro i hi
    rcases i with _ | _ | i
    · rfl
    · rfl
    · exact absurd hi (by simp [cubeC7])
  exact ⟨rfl, rfl, rfl, rfl, hM, rfl,
    claim7_broadcast_2d cubeC7 [2, 3] 2 rfl rfl rfl rfl hM rfl⟩

/-! ## Claim C8 -/

/-- A concrete 4-D cube whose resolved exposure time is a scalar, on which
the dimensionality check is skipped. -/
def cubeC8 : SpecCube :=
  { ndim := 4, rows := [[1]], urows := [[1]],
    unit := { sExp := 0, rest := 0 }, exposure := ExposureVal.scalar 2 }

/-- Counterexample to claim C8 as stated: a 4-D cube with a resolved
exposure time that is a scalar is corrected successfully; no
`InvalidDimensionalityError` is raised. -/
theorem claim8_counterexample :
    applyExposureTimeCorrection cubeC8 false false =
      Except.ok { ndim := 4, rows := [[1/2]], urows := [[1/2]],
                  unit := { sExp := -1, rest := 0 },
                  exposure := ExposureVal.scalar 2 } := by rfl

/-- Claim C8 (amended): for every 4-D cube whose resolved exposure time is a
non-scalar (per-exposure array), `apply_exposure_time_correction` raises the
`InvalidDimensionalityError`-kind `ValueError` with the documented
inconsistent message, for either direction and regardless of `force`, before
any correction is performed. -/
theorem claim8_dims_rejection_nonscalar (c : SpecCube) (ts : List ℚ)
    (hexp : c.exposure = ExposureVal.array ts) (hnd : c.ndim = 4)
    (undo force : Bool) :
    applyExposureTimeCorrection c undo force =
      Except.error (PyError.valueError INVALID_DIMENSIONALITY_ERROR) := by
  have hre : reshapeExposure c =
      Except.error (PyError.valueError INVALID_DIMENSIONALITY_ERROR) := by
    simp [reshapeExposure, hexp, hnd]
  simp [applyExposureTimeCorrection, hre]

/-- A concrete 4-D cube with a per-exposure exposure-time array, used to
witness the amended claim C8. -/
def cubeC8a : SpecCube :=
  { ndim := 4, rows := [[1]], urows := [[1]],
    unit := { sExp := 0, rest := 0 }, exposure := ExposureVal.array [2] }

/-- Witness for (amended) claim C8 at `cubeC8a`. -/
theorem claim8_witness :
    cubeC8a.exposure = ExposureVal.array [2] ∧ cubeC8a.ndim = 4 ∧
    applyExposureTimeCorrection cubeC8a false false =
      Except.error (PyError.valueError INVALID_DIMENSIONALITY_ERROR) :=
  ⟨rfl, rfl, claim8_dims_rejection_nonscalar cubeC8a [2] rfl rfl false false⟩

/-! ## Claim C10 -/

lemma apply_msg_ne_dims : APPLY_EXPOSURE_TIME_ERROR ≠ INVALID_DIMENSIONALITY_ERROR := by
  decide

lemma undo_msg_ne_dims : UNDO_EXPOSURE_TIME_ERROR ≠ INVALID_DIMENSIONALITY_ERROR := by
  decide

/-- Claim C10: for every cube of dimensionality other than 1, 2 or 3 whose
resolved exposure time is a scalar, `apply_exposure_time_correction` never
raises the dimensionality error (the scalar branch skips the check
entirely), and with `force=True` the correction is applied (or undone)
against every element of the data. -/
theorem claim10_scalar_skips_dims_check (c : SpecCube) (t : ℚ)
    (hexp : c.exposure = ExposureVal.scalar t)
    (hnd : c.ndim ≠ 1 ∧ c.ndim ≠ 2 ∧ c.ndim ≠ 3) :
    (∀ undo force : Bool, applyExposureTimeCorrection c undo force ≠
        Except.error (PyError.valueError INVALID_DIMENSIONALITY_ERROR)) ∧
    (applyExposureTimeCorrection c false true =
      Except.ok { c with rows := divAll c.rows c.exposure,
                         urows := divAll c.urows c.exposure,
                         unit := unitDivS c.unit }) ∧
    (applyExposureTimeCorrection c true true =
      Except.ok { c with rows := mulAll c.rows c.exposure,
                         urows := mulAll c.urows c.exposure,
                         unit := unitMulS c.unit }) := by
  have hre := reshapeExposure_of_scalar c t hexp
  have h1d : npDivRows c.rows (BExp.scalar t) = Except.ok (divAll c.rows c.exposure) := by
    rw [hexp]
    rfl
  have h2d : npDivRows c.urows (BExp.scalar t) = Except.ok (divAll c.urows c.exposure) := by
    rw [hexp]
    rfl
  have h1m : npMulRows c.rows (BExp.scalar t) = Except.ok (mulAll c.rows c.exposure) := by
    rw [hexp]
    rfl
  have h2m : npMulRows c.urows (BExp.scalar t) = Except.ok (mulAll c.urows c.exposure) := by
    rw [hexp]
    rfl
  refine ⟨?_, ?_, ?_⟩
  · intro undo force heq
    cases undo with
    | false =>
      by_cases hcond : force = false ∧ sInBases c.unit = true
      · rw [show applyExposureTimeCorrection c false force =
            Except.error (PyError.valueError APPLY_EXPOSURE_TIME_ERROR) from by
          simp [applyExposureTimeCorrection, hre, calculateExposureTimeCorrection,
                hcond.1, hcond.2]] at heq
        injection heq with h3
        injection h3 with h4
        exact apply_msg_ne_dims h4
      · rw [show applyExposureTimeCorrection c false force =
            Except.ok { c with rows := divAll c.rows c.exposure,
                               urows := divAll c.urows c.exposure,
                               unit := unitDivS c.unit } from by
          simp [applyExposureTimeCorrection, hre, calculateExposureTimeCorrection,
                if_neg hcond, divEach_pair h1d h2d]] at heq
        exact Except.noConfusion heq
    | true =>
      by_cases hcond : force = false ∧ sInBases (unitMulS c.unit) = true
      · rw [show applyExposureTimeCorrection c true force =
            Except.error (PyError.valueError UNDO_EXPOSURE_TIME_ERROR) from by
          simp [applyExposureTimeCorrection, hre, uncalculateExposureTimeCorrection,
                hcond.1, hcond.2]] at heq
        injection heq with h3
        injection h3 with h4
        exact undo_msg_ne_dims h4
      · rw [show applyExposureTimeCorrection c true force =
            Except.ok { c with rows := mulAll c.rows c.exposure,
                               urows := mulAll c.urows c.exposure,
                               unit := unitMulS c.unit } from by
          simp [applyExposureTimeCorrection, hre, uncalculateExposureTimeCorrection,
                if_neg hcond, mulEach_pair h1m h2m]] at heq
        exact Except.noConfusion heq
  · simp [applyExposureTimeCorrection, hre, calculateExposureTimeCorrection,
          divEach_pair h1d h2d]
  · simp [applyExposureTimeCorrection, hre, uncalculateExposureTimeCorrection,
          mulEach_pair h1m h2m]

/-- A concrete 4-D cube with scalar exposure time, used to witness claim
C10. -/
def cubeC10 : SpecCube :=
  { ndim := 4, rows := [[4, 6]], urows := [[2, 2]],
    unit := { sExp := 0, rest := 5 }, exposure := ExposureVal.scalar 2 }

/-- Witness for claim C10 at `cubeC10`. -/
theorem claim10_witness :
    cubeC10.exposure = ExposureVal.scalar 2 ∧
    (cubeC10.ndim ≠ 1 ∧ cubeC10.ndim ≠ 2 ∧ cubeC10.ndim ≠ 3) ∧
    ((∀ undo force : Bool, applyExposureTimeCorrection cubeC10 undo force ≠
        Except.error (PyError.valueError INVALID_DIMENSIONALITY_ERROR)) ∧
    (applyExposureTimeCorrection cubeC10 false true =
      Except.ok { cubeC10 with rows := divAll cubeC10.rows cubeC10.exposure,
                               urows := divAll cubeC10.urows cubeC10.exposure,
                               unit := unitDivS cubeC10.unit }) ∧
    (applyExposureTimeCorrection cubeC10 true true =
      Except.ok { cubeC10 with rows := mulAll cubeC10.rows cubeC10.exposure,
                               urows := mulAll cubeC10.urows cubeC10.exposure,
                               unit := unitMulS cubeC10.unit })) :=
  ⟨rfl, ⟨by decide, by decide, by decide⟩,
   claim10_scalar_skips_dims_check cubeC10 2 rfl ⟨by decide, by decide, by decide⟩⟩
